import Mathlib

/-!
Verification development for the rx-dashboard repository.

The repository derives several streams from one websocket connection:
a shared data stream with bounded retry and error conversion
(src/websocket-service.js), a heartbeat that forces reconnection, and a
dashboard (the Dashboard class) with a price-swing detector, a
volume-spike detector and an alert aggregator.

The embedding below translates each relevant source function into a Lean
definition.  Streams are modelled as functions from event traces (lists)
to the lists of emissions that every subscriber of the shared stream
observes, together with how the stream terminates.  JavaScript floating
point values carried by messages are modelled as rationals; the
transcendental volume-score expression is modelled over the reals.
JavaScript property access on a value of the wrong shape (which yields
undefined) and NaN arithmetic are modelled with Option.
-/

/-- One raw ticker object of an upstream array message.  Fields mirror the
Binance payload: s (symbol), c (close price), P (percent change),
v (volume).  The JavaScript code parses c, P, v with parseFloat; the
model carries the parsed numeric values directly. -/
structure RawItem where
  s : String
  c : ℚ
  P : ℚ
  v : ℚ
deriving DecidableEq

/-- A raw upstream message: either an array of ticker objects or any
non-array frame (heartbeat or control frame); the code only ever tests
Array.isArray on it. -/
inductive RawMsg
  | arr (items : List RawItem)
  | nonArr
deriving DecidableEq

/-- Array.isArray from the filter step of the data pipeline. -/
def isArr : RawMsg → Bool
  | RawMsg.arr _ => true
  | RawMsg.nonArr => false

/-- The normalized ticker record produced by processBinanceData. -/
structure TickerRecord where
  symbol : String
  price : ℚ
  priceChange : ℚ
  volume : ℚ
  volumeScore : ℤ
deriving DecidableEq

/-- The snapshot produced once per processed upstream message:
cryptos plus the Date.now() timestamp. -/
structure Snapshot where
  cryptos : List TickerRecord
  timestamp : ℕ
deriving DecidableEq

/-- The fixed symbol allow-list of processBinanceData. -/
def tickers : List String := ["BTCUSDT", "ETHUSDT", "SOLUSDT", "ADAUSDT"]

/-- The volume score subexpression of processBinanceData:
Math.min(10, Math.ceil(Math.log(v) / 10)).  Math.log is the natural
logarithm, modelled over the reals. -/
noncomputable def volumeScoreOf (v : ℚ) : ℤ :=
  min 10 ⌈Real.log ((v : ℝ)) / 10⌉

/-- processBinanceData from websocket-service.js: filter the raw items to
the allow-list, strip the quote-currency suffix, keep the parsed price,
percent change and volume, and attach the volume score and the current
timestamp. -/
noncomputable def processBinanceData (data : List RawItem) (now : ℕ) : Snapshot :=
  { cryptos :=
      (data.filter (fun item => tickers.contains item.s)).map (fun item =>
        { symbol := (item.s).replace ("USDT") ("")
          price := item.c
          priceChange := item.P
          volume := item.v
          volumeScore := volumeScoreOf item.v })
    timestamp := now }

/-- One event observed by the data pipeline: a delivered websocket
message, a connection failure (an error on the socket), or the
closeSubject firing (manual close). -/
inductive UpEvent
  | msg (m : RawMsg)
  | err
  | close
deriving DecidableEq

/-- How a run of the shared data stream ends: still open, completed, or
errored at a given time (only possible before catchError). -/
inductive DTerm
  | opn
  | completed
  | errored (t : ℕ)
deriving DecidableEq

/-- Whether a termination kind is an error termination. -/
def DTerm.isErrored : DTerm → Bool
  | DTerm.errored _ => true
  | _ => false

/-- The data pipeline of websocket-service.js up to (and excluding)
catchError, run over a timed event trace.  The parameter i is the index
that the map operator inside retryWhen has reached: it counts the errors
seen so far on the single subscription of the retry notifier and is never
reset.  On an error, if i is at least 5 the error is rethrown
(DTerm.errored), otherwise the connection is retried after the fixed
delay; array messages pass the Array.isArray filter and are normalized by
processBinanceData; a close event (takeUntil closeSubject) completes the
stream. -/
noncomputable def dataCore : ℕ → List (ℕ × UpEvent) → List Snapshot × DTerm
  | _, [] => ([], DTerm.opn)
  | i, (t, UpEvent.msg (RawMsg.arr items)) :: rest =>
      (processBinanceData items t :: (dataCore i rest).1, (dataCore i rest).2)
  | i, (_, UpEvent.msg RawMsg.nonArr) :: rest => dataCore i rest
  | i, (t, UpEvent.err) :: rest =>
      if 5 ≤ i then ([], DTerm.errored t) else dataCore (i + 1) rest
  | _, (_, UpEvent.close) :: _ => ([], DTerm.completed)

/-- The full shared data stream: dataCore followed by catchError, which
replaces an error termination by the emission of one empty snapshot
(cryptos [], timestamp Date.now()) followed by completion.  Because of
share(), the emission list is what every subscriber observes. -/
noncomputable def runData (events : List (ℕ × UpEvent)) : List Snapshot × DTerm :=
  match dataCore 0 events with
  | (es, DTerm.errored t) => (es ++ [⟨[], t⟩], DTerm.completed)
  | (es, DTerm.opn) => (es, DTerm.opn)
  | (es, DTerm.completed) => (es, DTerm.completed)

/-- The number of connection failures a trace contains before the first
close event, counted across the whole trace regardless of interleaved
successful messages. -/
def errCountBeforeClose : List (ℕ × UpEvent) → ℕ
  | [] => 0
  | (_, UpEvent.close) :: _ => 0
  | (_, UpEvent.err) :: rest => errCountBeforeClose rest + 1
  | (_, UpEvent.msg _) :: rest => errCountBeforeClose rest

/-- The heartbeat stream of websocket-service.js, run over the list of
probe results (whether this.socket closed was observed true) of the
interval ticks before close.  switchMap turns a closed probe into
throwError; the outer catchError then calls reconnect() and substitutes
of null, which completes the whole heartbeat stream.  The result is the
number of reconnect() invocations and whether the stream is still
running afterwards. -/
def runHeartbeat : List Bool → ℕ × Bool
  | [] => (0, true)
  | c :: rest => if c then (1, false) else runHeartbeat rest

/-- The percent change of a price alert as a string of a fixed number of
decimals: toFixed(2) modelled as rounding to two decimals, ties toward
the larger value as ECMA specifies. -/
def toFixed2 (q : ℚ) : ℚ := ((⌊q * 100 + 1 / 2⌋ : ℤ) : ℚ) / 100

/-- An alert of the price-swing detector (priceAlerts of the Dashboard). -/
structure PriceAlert where
  symbol : String
  pctChange : ℚ
  isUp : Bool
  timestamp : ℕ
deriving DecidableEq

/-- JavaScript subtraction where either operand may be undefined or NaN
(modelled as none): any such operand makes the result NaN. -/
def jsSub : Option ℚ → Option ℚ → Option ℚ
  | some a, some b => some (a - b)
  | _, _ => none

/-- JavaScript division with possibly undefined or NaN operands.  A zero
denominator is also mapped to none (the non-finite results Infinity and
NaN); in the price pipeline the operands are always undefined, so this
case is never reached. -/
def jsDiv : Option ℚ → Option ℚ → Option ℚ
  | some a, some b => if b = 0 then none else some (a / b)
  | _, _ => none

/-- JavaScript multiplication with possibly undefined or NaN operands. -/
def jsMul : Option ℚ → Option ℚ → Option ℚ
  | some a, some b => some (a * b)
  | _, _ => none

/-- Math.abs(x) >= 1 in JavaScript; false when x is NaN. -/
def jsAbsGeOne : Option ℚ → Bool
  | some q => decide (1 ≤ |q|)
  | none => false

/-- x > 0 in JavaScript; false when x is NaN. -/
def jsGtZero : Option ℚ → Bool
  | some q => decide (0 < q)
  | none => false

/-- Grouping step of the JavaScript reduce that builds an object keyed by
strings, keeping object key insertion order as Object.entries does. -/
def insertGrouped {α : Type} (acc : List (String × List α)) (k : String) (x : α) :
    List (String × List α) :=
  if acc.any (fun p => p.1 == k) then
    acc.map (fun p => if p.1 == k then (p.1, p.2 ++ [x]) else p)
  else acc ++ [(k, [x])]

/-- buffer.reduce building bySymbol, followed by Object.entries. -/
def groupByKey {α : Type} (key : α → String) (l : List α) : List (String × List α) :=
  l.foldl (fun acc x => insertGrouped acc (key x) x) []

/-- The grouping key item.symbol used on a buffered item.  The buffered
items are the per-emission cryptos arrays (the flatMap inside map copies
the records but does not flatten the emissions), so item is an Array and
property access .symbol yields undefined; used as an object key,
undefined is coerced to the string "undefined". -/
def itemSymbol (_item : List TickerRecord) : String := "undefined"

/-- Property access .price on a buffered item, which is an Array of
records, not a record: the result is undefined. -/
def itemPrice (_item : List TickerRecord) : Option ℚ := none

/-- The per-window computation of priceAlerts in the Dashboard: group the
buffered emissions by item.symbol, and for each group with at least two
items compute pctChange from the first and last item price, keeping only
groups whose absolute change reaches 1 percent.  The final
filter of non-null entries is filterMap; the trailing alerts.flat() maps
an array of alert objects to itself. -/
def priceAlertsWindow (buffer : List (List TickerRecord)) (now : ℕ) : List PriceAlert :=
  (groupByKey itemSymbol buffer).filterMap (fun entry =>
    let items := entry.2
    if items.length < 2 then none
    else
      let firstP := itemPrice items.headI
      let lastP := itemPrice items.getLastI
      let pctChange := jsMul (jsDiv (jsSub lastP firstP) firstP) (some 100)
      if jsAbsGeOne pctChange then
        some { symbol := entry.1
               pctChange := toFixed2 (pctChange.getD 0)
               isUp := jsGtZero pctChange
               timestamp := now }
      else none)

/-- What the priceAlerts stream emits when a five-minute buffer closes:
nothing when the buffer is empty (filter buffer.length > 0), otherwise
the window result, possibly an empty batch. -/
def priceAlertsEmit (buffer : List (List TickerRecord)) (now : ℕ) :
    Option (List PriceAlert) :=
  if buffer.length > 0 then some (priceAlertsWindow buffer now) else none

/-- An alert of the volume-spike detector. -/
structure VolumeAlert where
  symbol : String
  volumeIncrease : String
  timestamp : ℕ
deriving DecidableEq

/-- The scan accumulator of volumeAlerts: the cryptos of the previously
processed snapshot (null before the first one) and the alerts of the
current step. -/
structure VolState where
  prev : Option (List TickerRecord)
  alerts : List VolumeAlert
deriving DecidableEq

/-- toFixed(0): round to the nearest whole number, ties toward the larger
value, rendered as a string. -/
def toFixed0Str (q : ℚ) : String := toString ⌊q + 1 / 2⌋

/-- The scan step of volumeAlerts in the Dashboard: on the first
processed snapshot just record the cryptos; afterwards, for every record
of the current snapshot look up the record of the same symbol in the
previous snapshot, alert when the relative volume increase exceeds 0.2,
and replace the recorded state by the current cryptos regardless. -/
def volumeScanStep (acc : VolState) (cryptos : List TickerRecord) (now : ℕ) : VolState :=
  match acc.prev with
  | none => { prev := some cryptos, alerts := [] }
  | some prevList =>
      { prev := some cryptos
        alerts := cryptos.filterMap (fun current =>
          match prevList.find? (fun p => p.symbol == current.symbol) with
          | none => none
          | some prevRec =>
              let volumeIncrease := (current.volume - prevRec.volume) / prevRec.volume
              if (1 : ℚ) / 5 < volumeIncrease then
                some { symbol := current.symbol
                       volumeIncrease := toFixed0Str (volumeIncrease * 100)
                       timestamp := now }
              else none) }

/-- The scan step of allAlerts in the Dashboard: prepend the newly merged
batch and keep at most five entries ([...newAlerts, ...allAlerts]
.slice(0, 5)).  The step is generic in the entry type, as the source
step is. -/
def allAlertsStep {α : Type} (allAlerts newAlerts : List α) : List α :=
  (newAlerts ++ allAlerts).take 5

/-! Helper lemmas shared by the claim theorems. -/

/-- Every entry of a price window group evaluates to no alert: the group
items are arrays, their price is undefined, the percent change is NaN and
the threshold test fails. -/
lemma priceAlertsWindow_eq_nil (buffer : List (List TickerRecord)) (now : ℕ) :
    priceAlertsWindow buffer now = [] := by
  unfold priceAlertsWindow
  refine List.filterMap_eq_nil_iff.mpr ?_
  intro entry _
  by_cases h : entry.2.length < 2
  · simp [h]
  · simp [h, itemPrice, jsSub, jsDiv, jsMul, jsAbsGeOne]

/-- The volume score of volume one is zero: ln 1 = 0. -/
lemma volumeScoreOf_one : volumeScoreOf 1 = 0 := by
  unfold volumeScoreOf
  rw [Rat.cast_one, Real.log_one]
  norm_num

/-- Claim C3: the spec says a five-minute window holding BTC observations
at prices 100, 100.5, 101.2 in arrival order yields a price alert with
pctChange 1.20 and isUp true, computed from the first and last
observation of each symbol.  The code disagrees: the flatMap inside map
copies each cryptos array instead of flattening the emissions, so the
window buffer holds arrays; grouping reads item.symbol of an array
(undefined) and first and last prices of arrays (undefined), the percent
change is NaN, and the detector emits no alert for this window - in
fact it never emits any alert for any window. -/
theorem c3_price_swing_flatten_defect :
    priceAlertsWindow
        [[{ symbol := "BTC", price := 100, priceChange := 0, volume := 0, volumeScore := 1 }],
         [{ symbol := "BTC", price := 201 / 2, priceChange := 0, volume := 0, volumeScore := 1 }],
         [{ symbol := "BTC", price := 506 / 5, priceChange := 0, volume := 0, volumeScore := 1 }]] 0 = []
    ∧ ∀ (buffer : List (List TickerRecord)) (now : ℕ), priceAlertsWindow buffer now = [] :=
  ⟨priceAlertsWindow_eq_nil _ _, fun buffer now => priceAlertsWindow_eq_nil buffer now⟩

/-- Claim C9 counterexample: a window that closes containing one
observation (a single snapshot with one BTC record) and no qualifying
symbol does produce an emission on the alert stream, namely an empty
alert batch; the claim says nothing at all is emitted. -/
theorem c9_counterexample :
    priceAlertsEmit
        [[{ symbol := "BTC", price := 100, priceChange := 0, volume := 0, volumeScore := 1 }]] 0
      ≠ none
    ∧ priceAlertsEmit
        [[{ symbol := "BTC", price := 100, priceChange := 0, volume := 0, volumeScore := 1 }]] 0
      = some [] := by
  constructor
  · simp [priceAlertsEmit]
  · simp [priceAlertsEmit, priceAlertsWindow_eq_nil]

/-- Claim C9 as amended: only a window whose buffer is empty emits
nothing; a window with at least one buffered emission always emits a
batch, which is empty whenever no symbol qualifies (with this code, the
batch is in fact always empty). -/
theorem c9_window_emission :
    ∀ (buffer : List (List TickerRecord)) (now : ℕ),
      priceAlertsEmit buffer now =
        if buffer.isEmpty then none else some ([] : List PriceAlert) := by
  intro buffer now
  unfold priceAlertsEmit
  cases buffer with
  | nil => simp
  | cons b bs => simp [priceAlertsWindow_eq_nil]

/-- Claim C7: the spec says volumeScore is clamped to the integer range
1 to 10, with an invalid computation treated as 1, so no produced record
has a zero or negative score.  The code has no lower clamp: a normalized
record produced from a ticker with volume 1 carries volumeScore
min(10, ceil(ln 1 / 10)) = 0. -/
theorem c7_volume_score_unclamped :
    (processBinanceData [{ s := "BTCUSDT", c := 100, P := 0, v := 1 }] 0).cryptos.map
        TickerRecord.volumeScore = [0] := by
  have h : (processBinanceData [{ s := "BTCUSDT", c := 100, P := 0, v := 1 }] 0).cryptos.map
      TickerRecord.volumeScore = [volumeScoreOf 1] := rfl
  rw [h, volumeScoreOf_one]

/-- Claim C5 counterexample: the rolling state of the volume-spike
detector does not persist a symbol that is absent from the latest
processed snapshot.  Starting from a state that records BTC volume 1000,
processing a snapshot holding only ETH drops BTC from the state, and a
subsequent snapshot with a huge BTC volume raises no alert. -/
theorem c5_counterexample :
    ((volumeScanStep
          { prev := some [{ symbol := "BTC", price := 0, priceChange := 0, volume := 1000, volumeScore := 1 }],
            alerts := [] }
          [{ symbol := "ETH", price := 0, priceChange := 0, volume := 5, volumeScore := 1 }]
          1).prev.getD []).find? (fun r => r.symbol == "BTC") = none
    ∧ (volumeScanStep
          (volumeScanStep
            { prev := some [{ symbol := "BTC", price := 0, priceChange := 0, volume := 1000, volumeScore := 1 }],
              alerts := [] }
            [{ symbol := "ETH", price := 0, priceChange := 0, volume := 5, volumeScore := 1 }]
            1)
          [{ symbol := "BTC", price := 0, priceChange := 0, volume := 999999, volumeScore := 1 }]
          2).alerts = [] := by
  constructor
  · rfl
  · rfl

/-- Claim C5 as amended: on every processed snapshot the rolling state is
replaced by exactly the cryptos of that snapshot, regardless of alert
emission; consequently a symbol absent from the latest processed
snapshot is dropped from the state rather than persisting for the
session. -/
theorem c5_state_is_last_snapshot :
    ∀ (acc : VolState) (cryptos : List TickerRecord) (now : ℕ),
      (volumeScanStep acc cryptos now).prev = some cryptos := by
  intro acc cryptos now
  rcases acc with ⟨prev, alerts⟩
  cases prev with
  | none => rfl
  | some prevList => rfl

/-- Claim C4: on a volume check over a recorded previous snapshot, an
alert for symbol s is emitted exactly when some record of the current
snapshot with that symbol has a record of the same symbol in the
previous snapshot whose relative volume increase strictly exceeds 0.2;
a first snapshot (no recorded state) never alerts; previous volume 1000
with current 1250 yields the alert with volumeIncrease "25", while
current 1150 yields none. -/
theorem c4_volume_spike_rule :
    (∀ (prevList cryptos : List TickerRecord) (al : List VolumeAlert) (now : ℕ) (s : String),
        (∃ a ∈ (volumeScanStep { prev := some prevList, alerts := al } cryptos now).alerts,
            a.symbol = s) ↔
          ∃ c ∈ cryptos, c.symbol = s ∧
            ∃ p, prevList.find? (fun r => r.symbol == c.symbol) = some p ∧
              (1 : ℚ) / 5 < (c.volume - p.volume) / p.volume)
    ∧ (∀ (cryptos : List TickerRecord) (now : ℕ),
        (volumeScanStep { prev := none, alerts := [] } cryptos now).alerts = [])
    ∧ (volumeScanStep
          { prev := some [{ symbol := "BTC", price := 0, priceChange := 0, volume := 1000, volumeScore := 1 }],
            alerts := [] }
          [{ symbol := "BTC", price := 0, priceChange := 0, volume := 1250, volumeScore := 1 }] 7).alerts
        = [{ symbol := "BTC", volumeIncrease := "25", timestamp := 7 }]
    ∧ (volumeScanStep
          { prev := some [{ symbol := "BTC", price := 0, priceChange := 0, volume := 1000, volumeScore := 1 }],
            alerts := [] }
          [{ symbol := "BTC", price := 0, priceChange := 0, volume := 1150, volumeScore := 1 }] 7).alerts
        = [] := by
  refine ⟨?_, ?_, ?_, ?_⟩
  · intro prevList cryptos al now s
    have halerts : (volumeScanStep { prev := some prevList, alerts := al } cryptos now).alerts
        = cryptos.filterMap (fun current =>
            match prevList.find? (fun p => p.symbol == current.symbol) with
            | none => none
            | some prevRec =>
                if (1 : ℚ) / 5 < (current.volume - prevRec.volume) / prevRec.volume then
                  some { symbol := current.symbol
                         volumeIncrease :=
                           toFixed0Str ((current.volume - prevRec.volume) / prevRec.volume * 100)
                         timestamp := now }
                else none) := rfl
    rw [halerts]
    constructor
    · rintro ⟨a, ha, hs⟩
      rcases List.mem_filterMap.mp ha with ⟨c, hc, hfc⟩
      cases hfind : prevList.find? (fun p => p.symbol == c.symbol) with
      | none =>
          rw [hfind] at hfc
          cases hfc
      | some p =>
          rw [hfind] at hfc
          dsimp only at hfc
          by_cases hlt : (1 : ℚ) / 5 < (c.volume - p.volume) / p.volume
          · rw [if_pos hlt] at hfc
            obtain rfl : ({ symbol := c.symbol
                            volumeIncrease :=
                              toFixed0Str ((c.volume - p.volume) / p.volume * 100)
                            timestamp := now } : VolumeAlert) = a := Option.some.inj hfc
            exact ⟨c, hc, hs, p, hfind, hlt⟩
          · rw [if_neg hlt] at hfc
            cases hfc
    · rintro ⟨c, hc, hcs, p, hfind, hlt⟩
      refine ⟨{ symbol := c.symbol
                volumeIncrease := toFixed0Str ((c.volume - p.volume) / p.volume * 100)
                timestamp := now }, ?_, hcs⟩
      refine List.mem_filterMap.mpr ⟨c, hc, ?_⟩
      rw [hfind]
      dsimp only
      rw [if_pos hlt]
  · intro cryptos now
    rfl
  · simp [volumeScanStep, List.filterMap, List.find?, toFixed0Str]
    norm_num
    rfl
  · simp [volumeScanStep, List.filterMap, List.find?]
    norm_num

/-- The aggregator scan never grows the retained list beyond five
entries, from any accumulator already within the bound. -/
lemma foldl_allAlertsStep_le {α : Type} (batches : List (List α)) :
    ∀ acc : List α, acc.length ≤ 5 → (batches.foldl allAlertsStep acc).length ≤ 5 := by
  induction batches with
  | nil => intro acc h; simpa using h
  | cons b bs ih =>
      intro acc h
      simp only [List.foldl_cons]
      apply ih
      simp only [allAlertsStep, List.length_take]
      omega

/-- Claim C6: the alert aggregator prepends each merged batch and keeps
at most five entries, so the retained list never exceeds five entries,
and six sequential single-alert batches leave exactly the last five
alerts, most recent first. -/
theorem c6_alert_aggregator {α : Type} :
    (∀ batches : List (List α), (batches.foldl allAlertsStep ([] : List α)).length ≤ 5)
    ∧ ∀ a1 a2 a3 a4 a5 a6 : α,
        ([[a1], [a2], [a3], [a4], [a5], [a6]] : List (List α)).foldl allAlertsStep []
          = [a6, a5, a4, a3, a2] := by
  refine ⟨fun batches => foldl_allAlertsStep_le batches [] (by simp), ?_⟩
  intro a1 a2 a3 a4 a5 a6
  rfl

/-- Claim C8 counterexample: with the socket observed closed on two
consecutive heartbeat ticks, only one reconnect() happens and the
heartbeat stream has completed; the second tick is never probed, because
the outer catchError replaces the whole heartbeat stream after the first
caught error.  The claim says probing recurs on every subsequent tick,
which would give a second reconnect. -/
theorem c8_counterexample :
    runHeartbeat [true, true] = (1, false)
    ∧ runHeartbeat [true, true] = runHeartbeat [true] := by
  exact ⟨rfl, rfl⟩

/-- Claim C8 as amended: the heartbeat probes every tick while the socket
is observed open; the first tick that observes it closed triggers exactly
one reconnect() and completes the heartbeat stream, so no further probing
or heartbeat-triggered reconnection occurs afterwards. -/
theorem c8_heartbeat_single_fire :
    ∀ ticks : List Bool,
      runHeartbeat ticks = (if ticks.contains true then 1 else 0, !ticks.contains true) := by
  intro ticks
  induction ticks with
  | nil => rfl
  | cons c rest ih =>
      cases c with
      | false => simpa [runHeartbeat] using ih
      | true => simp [runHeartbeat]

/-- The retry pipeline errors out exactly when the retry index would pass
five, that is when the failures seen before the first close, counted
cumulatively, reach six minus the starting index. -/
lemma dataCore_errored_iff (events : List (ℕ × UpEvent)) :
    ∀ i, i ≤ 5 →
      (((dataCore i events).2).isErrored = true ↔ 6 ≤ i + errCountBeforeClose events) := by
  induction events with
  | nil =>
      intro i h
      simp only [dataCore, errCountBeforeClose, DTerm.isErrored]
      constructor
      · intro hfalse; cases hfalse
      · intro h6; omega
  | cons e rest ih =>
      intro i h
      obtain ⟨t, ev⟩ := e
      cases ev with
      | msg m =>
          cases m with
          | arr items =>
              simpa only [dataCore, errCountBeforeClose] using ih i h
          | nonArr =>
              simpa only [dataCore, errCountBeforeClose] using ih i h
      | err =>
          by_cases h5 : 5 ≤ i
          · have hi : i = 5 := le_antisymm h h5
            subst hi
            simp only [dataCore, if_pos h5, errCountBeforeClose, DTerm.isErrored]
            constructor
            · intro _; omega
            · intro _; trivial
          · have hrec := ih (i + 1) (by omega)
            simp only [dataCore, if_neg h5, errCountBeforeClose]
            rw [hrec]
            omega
      | close =>
          simp only [dataCore, errCountBeforeClose, DTerm.isErrored]
          constructor
          · intro hfalse; cases hfalse
          · intro h6; omega

/-- Once the core pipeline has errored, appending further upstream events
changes nothing: the stream is finished. -/
lemma dataCore_errored_append (post : List (ℕ × UpEvent)) :
    ∀ (events : List (ℕ × UpEvent)) (i : ℕ) (es : List Snapshot) (t : ℕ),
      dataCore i events = (es, DTerm.errored t) →
        dataCore i (events ++ post) = (es, DTerm.errored t) := by
  intro events
  induction events with
  | nil =>
      intro i es t hcontra
      simp only [dataCore, Prod.mk.injEq] at hcontra
      cases hcontra.2
  | cons e rest ih =>
      intro i es t hyp
      obtain ⟨tt, ev⟩ := e
      cases ev with
      | msg m =>
          cases m with
          | arr items =>
              have hstep0 : dataCore i ((tt, UpEvent.msg (RawMsg.arr items)) :: rest)
                  = (processBinanceData items tt :: (dataCore i rest).1,
                     (dataCore i rest).2) := rfl
              have hstep1 : dataCore i (((tt, UpEvent.msg (RawMsg.arr items)) :: rest) ++ post)
                  = (processBinanceData items tt :: (dataCore i (rest ++ post)).1,
                     (dataCore i (rest ++ post)).2) := rfl
              rw [hstep0, Prod.mk.injEq] at hyp
              obtain ⟨hes, hterm⟩ := hyp
              have hrest : dataCore i (rest ++ post) = ((dataCore i rest).1, DTerm.errored t) :=
                ih i (dataCore i rest).1 t (by rw [← hterm])
              rw [hstep1, hrest, Prod.mk.injEq]
              exact ⟨hes, rfl⟩
          | nonArr =>
              have hstep0 : dataCore i ((tt, UpEvent.msg RawMsg.nonArr) :: rest)
                  = dataCore i rest := rfl
              have hstep1 : dataCore i (((tt, UpEvent.msg RawMsg.nonArr) :: rest) ++ post)
                  = dataCore i (rest ++ post) := rfl
              rw [hstep0] at hyp
              rw [hstep1]
              exact ih i es t hyp
      | err =>
          have hstep0 : dataCore i ((tt, UpEvent.err) :: rest)
              = if 5 ≤ i then ([], DTerm.errored tt) else dataCore (i + 1) rest := rfl
          have hstep1 : dataCore i (((tt, UpEvent.err) :: rest) ++ post)
              = if 5 ≤ i then ([], DTerm.errored tt)
                else dataCore (i + 1) (rest ++ post) := rfl
          by_cases h5 : 5 ≤ i
          · rw [hstep0, if_pos h5] at hyp
            rw [hstep1, if_pos h5]
            exact hyp
          · rw [hstep0, if_neg h5] at hyp
            rw [hstep1, if_neg h5]
            exact ih (i + 1) es t hyp
      | close =>
          have hstep0 : dataCore i ((tt, UpEvent.close) :: rest)
              = ([], DTerm.completed) := rfl
          rw [hstep0, Prod.mk.injEq] at hyp
          cases hyp.2

/-- A non-array message anywhere in the trace is invisible: it is dropped
by the Array.isArray filter before it can touch the retry counter, the
normalizer or the error handler. -/
lemma dataCore_nonArr_mid (t : ℕ) (post : List (ℕ × UpEvent)) :
    ∀ (pre : List (ℕ × UpEvent)) (i : ℕ),
      dataCore i (pre ++ (t, UpEvent.msg RawMsg.nonArr) :: post) = dataCore i (pre ++ post) := by
  intro pre
  induction pre with
  | nil =>
      intro i
      rfl
  | cons e rest ih =>
      intro i
      obtain ⟨tt, ev⟩ := e
      cases ev with
      | msg m =>
          cases m with
          | arr items =>
              have h1 : dataCore i
                    (((tt, UpEvent.msg (RawMsg.arr items)) :: rest)
                      ++ (t, UpEvent.msg RawMsg.nonArr) :: post)
                  = (processBinanceData items tt ::
                       (dataCore i (rest ++ (t, UpEvent.msg RawMsg.nonArr) :: post)).1,
                     (dataCore i (rest ++ (t, UpEvent.msg RawMsg.nonArr) :: post)).2) := rfl
              have h2 : dataCore i (((tt, UpEvent.msg (RawMsg.arr items)) :: rest) ++ post)
                  = (processBinanceData items tt :: (dataCore i (rest ++ post)).1,
                     (dataCore i (rest ++ post)).2) := rfl
              rw [h1, h2, ih i]
          | nonArr =>
              have h1 : dataCore i
                    (((tt, UpEvent.msg RawMsg.nonArr) :: rest)
                      ++ (t, UpEvent.msg RawMsg.nonArr) :: post)
                  = dataCore i (rest ++ (t, UpEvent.msg RawMsg.nonArr) :: post) := rfl
              have h2 : dataCore i (((tt, UpEvent.msg RawMsg.nonArr) :: rest) ++ post)
                  = dataCore i (rest ++ post) := rfl
              rw [h1, h2]
              exact ih i
      | err =>
          have h1 : dataCore i
                (((tt, UpEvent.err) :: rest) ++ (t, UpEvent.msg RawMsg.nonArr) :: post)
              = if 5 ≤ i then ([], DTerm.errored tt)
                else dataCore (i + 1) (rest ++ (t, UpEvent.msg RawMsg.nonArr) :: post) := rfl
          have h2 : dataCore i (((tt, UpEvent.err) :: rest) ++ post)
              = if 5 ≤ i then ([], DTerm.errored tt)
                else dataCore (i + 1) (rest ++ post) := rfl
          by_cases h5 : 5 ≤ i
          · rw [h1, h2, if_pos h5, if_pos h5]
          · rw [h1, h2, if_neg h5, if_neg h5]
            exact ih (i + 1)
      | close =>
          rfl

/-- Claim C1 counterexample: five consecutive connection failures do not
put the stream into the terminal error state - a fifth retry is still
pending and the stream is open.  And the failure counter is not reset by
a successful message: after three failures, one delivered message and
three further failures (never more than three consecutive failures after
a success), the sixth cumulative failure is rethrown, the error state is
surfaced and the stream completes. -/
theorem c1_counterexample :
    runData [(0, UpEvent.err), (1, UpEvent.err), (2, UpEvent.err), (3, UpEvent.err),
             (4, UpEvent.err)] = ([], DTerm.opn)
    ∧ runData [(0, UpEvent.err), (1, UpEvent.err), (2, UpEvent.err),
               (3, UpEvent.msg (RawMsg.arr [])), (4, UpEvent.err), (5, UpEvent.err),
               (6, UpEvent.err)]
        = ([⟨[], 3⟩, ⟨[], 6⟩], DTerm.completed) :=
  ⟨rfl, rfl⟩

/-- Claim C1 as amended: the data stream reaches the terminal error state
exactly when the cumulative number of connection failures before the
first close reaches six (the initial failure plus five failed retries);
the retryWhen counter is the index of a single subscription to the error
notifier, so successful messages in between do not reset it.  Once the
core stream has errored, appending any further upstream events changes
nothing: no automatic retry occurs until a new subscription
(reconnect). -/
theorem c1_retry_exhaustion :
    (∀ events : List (ℕ × UpEvent),
        ((dataCore 0 events).2).isErrored = true ↔ 6 ≤ errCountBeforeClose events)
    ∧ ∀ (events post : List (ℕ × UpEvent)) (es : List Snapshot) (t : ℕ),
        dataCore 0 events = (es, DTerm.errored t) →
          runData (events ++ post) = runData events := by
  constructor
  · intro events
    simpa using dataCore_errored_iff events 0 (by omega)
  · intro events post es t h
    unfold runData
    rw [dataCore_errored_append post events 0 es t h, h]

/-- Witness for the C1 theorem at a concrete trace: six cumulative
failures with a success in between errored the core stream, and a later
delivered message leaves the run unchanged. -/
theorem c1_retry_exhaustion_witness :
    dataCore 0 [(0, UpEvent.err), (1, UpEvent.err), (2, UpEvent.err),
                (3, UpEvent.msg (RawMsg.arr [])), (4, UpEvent.err), (5, UpEvent.err),
                (6, UpEvent.err)] = ([⟨[], 3⟩], DTerm.errored 6)
    ∧ runData ([(0, UpEvent.err), (1, UpEvent.err), (2, UpEvent.err),
                (3, UpEvent.msg (RawMsg.arr [])), (4, UpEvent.err), (5, UpEvent.err),
                (6, UpEvent.err)] ++ [(9, UpEvent.msg (RawMsg.arr []))])
        = runData [(0, UpEvent.err), (1, UpEvent.err), (2, UpEvent.err),
                   (3, UpEvent.msg (RawMsg.arr [])), (4, UpEvent.err), (5, UpEvent.err),
                   (6, UpEvent.err)] :=
  ⟨rfl,
   c1_retry_exhaustion.2
     [(0, UpEvent.err), (1, UpEvent.err), (2, UpEvent.err),
      (3, UpEvent.msg (RawMsg.arr [])), (4, UpEvent.err), (5, UpEvent.err),
      (6, UpEvent.err)]
     [(9, UpEvent.msg (RawMsg.arr []))] [⟨[], 3⟩] 6 rfl⟩

/-- Claim C2 counterexample: after the retries are exhausted the error is
converted into one empty snapshot, but the shared sequence does not stay
alive - it completes, and an upstream message delivered afterwards
reaches no subscriber.  The run of a trace with six failures followed by
a delivered array message emits exactly the one empty snapshot and
completes. -/
theorem c2_counterexample :
    runData [(0, UpEvent.err), (1, UpEvent.err), (2, UpEvent.err), (3, UpEvent.err),
             (4, UpEvent.err), (5, UpEvent.err),
             (9, UpEvent.msg (RawMsg.arr [{ s := "BTCUSDT", c := 100, P := 0, v := 1000 }]))]
      = ([{ cryptos := [], timestamp := 5 }], DTerm.completed) :=
  rfl

/-- Claim C2 as amended: no trace makes the shared data stream terminate
with an error - every error reaching it is caught - and whenever the
core pipeline errors, every subscriber observes exactly one additional
empty snapshot (cryptos [], timestamped at the failure) after which the
shared sequence completes; it does not stay alive for later messages. -/
theorem c2_error_conversion :
    (∀ (events : List (ℕ × UpEvent)) (t : ℕ), (runData events).2 ≠ DTerm.errored t)
    ∧ ∀ (events : List (ℕ × UpEvent)) (es : List Snapshot) (t : ℕ),
        dataCore 0 events = (es, DTerm.errored t) →
          runData events = (es ++ [{ cryptos := [], timestamp := t }], DTerm.completed) := by
  constructor
  · intro events t
    unfold runData
    rcases hd : dataCore 0 events with ⟨es, tm⟩
    cases tm <;> simp
  · intro events es t h
    unfold runData
    rw [h]

/-- Witness for the C2 theorem at a concrete trace: six consecutive
failures error the core stream at time 5, and the full stream emits the
one empty snapshot with that timestamp and completes. -/
theorem c2_error_conversion_witness :
    dataCore 0 [(0, UpEvent.err), (1, UpEvent.err), (2, UpEvent.err), (3, UpEvent.err),
                (4, UpEvent.err), (5, UpEvent.err)] = ([], DTerm.errored 5)
    ∧ runData [(0, UpEvent.err), (1, UpEvent.err), (2, UpEvent.err), (3, UpEvent.err),
               (4, UpEvent.err), (5, UpEvent.err)]
        = ([{ cryptos := [], timestamp := 5 }], DTerm.completed) :=
  ⟨rfl, by
    simpa using
      c2_error_conversion.2
        [(0, UpEvent.err), (1, UpEvent.err), (2, UpEvent.err), (3, UpEvent.err),
         (4, UpEvent.err), (5, UpEvent.err)] [] 5 rfl⟩

/-- Claim C10: a non-array upstream message anywhere in the trace leaves
the run of the shared data stream unchanged: it contributes no ticker
records, is not treated as an error (the retry counter is untouched) and
does not disturb the sequence of snapshots seen by subscribers. -/
theorem c10_nonarray_transparent :
    ∀ (pre post : List (ℕ × UpEvent)) (t : ℕ) (m : RawMsg), isArr m = false →
      runData (pre ++ (t, UpEvent.msg m) :: post) = runData (pre ++ post) := by
  intro pre post t m hm
  cases m with
  | arr items => simp [isArr] at hm
  | nonArr =>
      unfold runData
      rw [dataCore_nonArr_mid t post pre 0]

/-- Witness for the C10 theorem: a single non-array frame produces
exactly the run of the empty trace. -/
theorem c10_nonarray_transparent_witness :
    isArr RawMsg.nonArr = false
    ∧ runData [(0, UpEvent.msg RawMsg.nonArr)] = runData [] :=
  ⟨rfl, by simpa using c10_nonarray_transparent [] [] 0 RawMsg.nonArr rfl⟩
